import Mathlib

/-!
Shallow embedding of the AWS IoT Core foreign data wrapper
(src/AWSIoTCore_fdw/AWSIoTCore_fdw.py, class AIC_fdw) and proofs about it.

The embedding models the pushdown/pagination core of the wrapper:
predicate extraction, the paginated fetch loops for the three table kinds
(thing, thing-type, thing-group), the column-gated row construction with
its secondary lookups (group membership, shadow document), and the three
mutation entry points (insert, update, delete).

Backends (the boto3 clients) are modelled as explicit functions from
request records to response records; each fetch loop returns both the
emitted rows and the trace of requests it issued, and each row-building
step returns the list of secondary calls it made, so that call counts and
call arguments are provable facts.  Python dict values are modelled with
PyVal (None / string / integer); Python truthiness of an optional string
(None and the empty string are falsy) is modelled by truthy.  The while
loops are given explicit fuel; every claim is settled either at concrete
inputs (where any sufficient fuel determines the behaviour) or by
induction over the fuel.
-/

namespace AICfdw

/-- A Python value as it appears in a row dict: None, a string (also used
for JSON-serialized blobs and shadow payload bytes), or an integer. -/
inductive PyVal where
  | null : PyVal
  | str : String → PyVal
  | int : Int → PyVal
deriving DecidableEq, Repr

/-- Embed an optional string as a row value (None becomes PyVal.null). -/
def optVal : Option String → PyVal
  | Option.none => PyVal.null
  | Option.some s => PyVal.str s

/-- Embed an optional integer as a row value. -/
def optIntVal : Option Int → PyVal
  | Option.none => PyVal.null
  | Option.some n => PyVal.int n

/-- Python truthiness of an optional string: None and the empty string
are falsy, every other string is truthy. -/
def truthy : Option String → Bool
  | Option.none => false
  | Option.some s => s != ""

/-- A row emitted by execute: an insertion-ordered dict from column name
to value, modelled as an association list. -/
abbrev Row := List (String × PyVal)

/-- Does the row dict carry an entry for the given key? -/
def rowHasKey (r : Row) (k : String) : Bool :=
  r.any (fun kv => kv.1 == k)

/-- The value stored in the row under the given key, if any entry exists. -/
def rowGet (r : Row) (k : String) : Option PyVal :=
  (r.find? (fun kv => kv.1 == k)).map (fun kv => kv.2)

/-- A predicate (multicorn Qual) handed down by the query layer:
field name, comparison operator and literal value. -/
structure Qual where
  field_name : String
  operator : String
  value : String
deriving DecidableEq, Repr

/-- Page-size cap used by every list call (self.MAX_RESULTS). -/
def MAX_RESULTS : Nat := 250

/-- The LIKE wildcard character (self.LIKE_WILDCARD = '%'). -/
def LIKE_WILDCARD : Char := '%'

/-- Python str.lower, character-wise (the strings it is applied to are
ASCII field and table-kind names). -/
def pyLower (s : String) : String :=
  ⟨s.data.map Char.toLower⟩

/-- Python str.endswith for a string argument. -/
def pyEndsWith (s post : String) : Bool :=
  post.data.isSuffixOf s.data

/-- Python s[:-1]: the string without its last character. -/
def pyDropLast (s : String) : String :=
  ⟨s.data.dropLast⟩

/-- Number of occurrences of a character in a string
(Python str.count for a single-character argument). -/
def countChar (s : String) (c : Char) : Nat :=
  (s.data.filter (fun x => x == c)).length

/-- Predicate extraction of _execute_thing and _execute_thing_type
(lines 153-159 and 204-210): scan the quals and keep the value of the
last equality predicate on the thing_type_name field. -/
def extractThingTypeName (quals : List Qual) : Option String :=
  quals.foldl
    (fun acc q =>
      if pyLower q.field_name == "thing_type_name" then
        if q.operator == "=" then some q.value else acc
      else acc)
    none

/-- Predicate extraction of _execute_thing_group (lines 106-114): an
equality predicate on thing_group_name supplies its value; a LIKE
predicate supplies its value with the last character stripped, but only
when qual.field_name (sic - the source tests the field name, not the
value) contains exactly one wildcard and ends with the wildcard. -/
def extractThingGroupFilter (quals : List Qual) : Option String :=
  quals.foldl
    (fun acc q =>
      if pyLower q.field_name == "thing_group_name" then
        if q.operator == "=" then some q.value
        else if q.operator == "~~" && countChar q.field_name LIKE_WILDCARD == 1
            && pyEndsWith q.field_name "%" then
          some (pyDropLast q.value)
        else acc
      else acc)
    none

/-- A thing group item of a list_thing_groups response: groupName is the
primary key (always present, per the source comment), groupArn optional. -/
structure ThingGroup where
  groupName : String
  groupArn : Option String
deriving DecidableEq, Repr

/-- Arguments of one list_thing_groups call (call_args of lines 120-128):
absent optional arguments are none. -/
structure ListThingGroupsReq where
  maxResults : Nat
  nextToken : Option String
  namePrefixFilter : Option String
deriving DecidableEq, Repr

/-- A list_thing_groups response: one page of items and an optional
continuation token. -/
structure ListThingGroupsResp where
  thingGroups : List ThingGroup
  nextToken : Option String

/-- Row construction for one thing group (lines 132-141): the key column
is always set, thing_group_arn only when requested. -/
def thingGroupRow (columns : List String) (tg : ThingGroup) : Row :=
  let row : Row := [("thing_group_name", PyVal.str tg.groupName)]
  if columns.contains "thing_group_arn" then
    row ++ [("thing_group_arn", optVal tg.groupArn)]
  else row

/-- The while loop of _execute_thing_group (lines 116-144), with fuel.
Returns the emitted rows and the trace of issued requests.  The
nextToken argument is the loop variable; each iteration builds call_args
(maxResults always, nextToken and namePrefixFilter only when truthy),
calls the backend, emits one row per item, and continues while the
response token is truthy. -/
def listThingGroupsLoop (backend : ListThingGroupsReq → ListThingGroupsResp)
    (filterV : Option String) (columns : List String) :
    Nat → Option String → List Row × List ListThingGroupsReq
  | 0, _ => ([], [])
  | fuel + 1, nextToken =>
    let req : ListThingGroupsReq :=
      { maxResults := MAX_RESULTS
        nextToken := if truthy nextToken then nextToken else none
        namePrefixFilter := if truthy filterV then filterV else none }
    let resp := backend req
    let rows := resp.thingGroups.map (thingGroupRow columns)
    if truthy resp.nextToken then
      let rest := listThingGroupsLoop backend filterV columns fuel resp.nextToken
      (rows ++ rest.1, req :: rest.2)
    else
      (rows, [req])

/-- Model of _execute_thing_group (lines 105-144): extract the filter from the
quals, then drain the paginated list. -/
def executeThingGroup (backend : ListThingGroupsReq → ListThingGroupsResp)
    (quals : List Qual) (columns : List String) (fuel : Nat) :
    List Row × List ListThingGroupsReq :=
  listThingGroupsLoop backend (extractThingGroupFilter quals) columns fuel none

/-- json.dumps as used on the jsonb columns: blobs reaching this wrapper
are carried already in their serialized text form, so serialization is
modelled as the identity on that text; dumps(None) is the JSON text
null. -/
def dumps : Option String → String
  | Option.none => "null"
  | Option.some s => s

/-- A thing type item of a list_thing_types response: thingTypeName is
the primary key (always present, per the source comment); the blobs are
carried as optional serialized text. -/
structure ThingType where
  thingTypeName : String
  thingTypeArn : Option String
  thingTypeProperties : Option String
  thingTypeMetadata : Option String
deriving DecidableEq, Repr

/-- Arguments of one list_thing_types call (call_args of lines 165-173). -/
structure ListThingTypesReq where
  maxResults : Nat
  nextToken : Option String
  thingTypeName : Option String
deriving DecidableEq, Repr

/-- A list_thing_types response. -/
structure ListThingTypesResp where
  thingTypes : List ThingType
  nextToken : Option String

/-- Row construction for one thing type (lines 177-192). -/
def thingTypeRow (columns : List String) (tt : ThingType) : Row :=
  let row : Row := [("thing_type_name", PyVal.str tt.thingTypeName)]
  let row := if columns.contains "thing_type_arn" then
      row ++ [("thing_type_arn", optVal tt.thingTypeArn)] else row
  let row := if columns.contains "thing_type_properties" then
      row ++ [("thing_type_properties", PyVal.str (dumps tt.thingTypeProperties))] else row
  let row := if columns.contains "thing_type_metadata" then
      row ++ [("thing_type_metadata", PyVal.str (dumps tt.thingTypeMetadata))] else row
  row

/-- The while loop of _execute_thing_type (lines 161-195), with fuel.
typeNameVar is the Python variable thing_type_name: it starts as the
extracted filter, but the row loop of lines 177-179 REASSIGNS the same
variable to each item's thingTypeName, so after a non-empty page the
variable carries the last item's name and is used as the filter of the
next continuation call.  The fold below reproduces that reassignment. -/
def listThingTypesLoop (backend : ListThingTypesReq → ListThingTypesResp)
    (columns : List String) :
    Nat → Option String → Option String → List Row × List ListThingTypesReq
  | 0, _, _ => ([], [])
  | fuel + 1, typeNameVar, nextToken =>
    let req : ListThingTypesReq :=
      { maxResults := MAX_RESULTS
        nextToken := if truthy nextToken then nextToken else none
        thingTypeName := if truthy typeNameVar then typeNameVar else none }
    let resp := backend req
    let rows := resp.thingTypes.map (thingTypeRow columns)
    let typeNameVar2 :=
      resp.thingTypes.foldl (fun _ tt => some tt.thingTypeName) typeNameVar
    if truthy resp.nextToken then
      let rest := listThingTypesLoop backend columns fuel typeNameVar2 resp.nextToken
      (rows ++ rest.1, req :: rest.2)
    else
      (rows, [req])

/-- Model of _execute_thing_type (lines 152-195): extract the equality filter
from the quals, then drain the paginated list. -/
def executeThingType (backend : ListThingTypesReq → ListThingTypesResp)
    (quals : List Qual) (columns : List String) (fuel : Nat) :
    List Row × List ListThingTypesReq :=
  listThingTypesLoop backend columns fuel (extractThingTypeName quals) none

/-- A thing item of a list_things response: thingName is the primary key
(always present, per the source comment), the rest optional. -/
structure Thing where
  thingName : String
  thingTypeName : Option String
  thingArn : Option String
  version : Option Int
  attributes : Option String
deriving DecidableEq, Repr

/-- Arguments of one list_things call (call_args of lines 217-225). -/
structure ListThingsReq where
  maxResults : Nat
  nextToken : Option String
  thingTypeName : Option String
deriving DecidableEq, Repr

/-- A list_things response. -/
structure ListThingsResp where
  things : List Thing
  nextToken : Option String

/-- Outcome of one get_thing_shadow call: a response whose payload is an
optional document, or a backend-reported failure (ClientError). -/
inductive ShadowResult where
  | ok : Option String → ShadowResult
  | clientError : ShadowResult
deriving DecidableEq, Repr

/-- Model of _thing_shadow_data (lines 287-300): data starts as None; on a
successful call with a payload it becomes the payload text; a response
without payload, or a ClientError (logged as a warning, non-fatal),
leaves it None. -/
def thing_shadow_data (shadowB : String → ShadowResult) (thing : String) :
    Option String :=
  match shadowB thing with
  | ShadowResult.ok (some payload) => some payload
  | ShadowResult.ok none => none
  | ShadowResult.clientError => none

/-- Row construction and secondary lookups for one thing (lines 229-253).
groupsB abstracts _thing_groups_for_thing (lines 264-285): it returns
the serialized group list, or None when that lookup fails.  Returns the
row, the list of group-membership calls issued (thing names) and the
list of shadow calls issued (thing names); each backend lookup happens
only inside its requested-column guard. -/
def thingRow (groupsB : String → Option String) (shadowB : String → ShadowResult)
    (columns : List String) (t : Thing) : Row × List String × List String :=
  let row : Row := [("thing_name", PyVal.str t.thingName)]
  let rg : Row × List String :=
    if columns.contains "thing_groups" then
      (row ++ [("thing_groups", optVal (groupsB t.thingName))], [t.thingName])
    else (row, [])
  let row := rg.1
  let row := if columns.contains "thing_type_name" then
      row ++ [("thing_type_name", optVal t.thingTypeName)] else row
  let row := if columns.contains "thing_arn" then
      row ++ [("thing_arn", optVal t.thingArn)] else row
  let row := if columns.contains "thing_version" then
      row ++ [("thing_version", optIntVal t.version)] else row
  let row := if columns.contains "thing_attributes" then
      row ++ [("thing_attributes", PyVal.str (dumps t.attributes))] else row
  let rs : Row × List String :=
    if columns.contains "thing_shadow_data" then
      (row ++ [("thing_shadow_data", optVal (thing_shadow_data shadowB t.thingName))],
        [t.thingName])
    else (row, [])
  (rs.1, rg.2, rs.2)

/-- Everything _execute_thing produces besides the rows themselves:
the trace of list_things requests and the secondary calls. -/
structure ThingExecOut where
  rows : List Row
  reqs : List ListThingsReq
  groupCalls : List String
  shadowCalls : List String
deriving DecidableEq, Repr

/-- The while loop of _execute_thing (lines 212-256), with fuel.  Unlike
_execute_thing_type, the loop variables (thing, thing_name) are distinct
from the filter variable, so the filter is constant across pages. -/
def listThingsLoop (backend : ListThingsReq → ListThingsResp)
    (groupsB : String → Option String) (shadowB : String → ShadowResult)
    (filterV : Option String) (columns : List String) :
    Nat → Option String → ThingExecOut
  | 0, _ => ⟨[], [], [], []⟩
  | fuel + 1, nextToken =>
    let req : ListThingsReq :=
      { maxResults := MAX_RESULTS
        nextToken := if truthy nextToken then nextToken else none
        thingTypeName := if truthy filterV then filterV else none }
    let resp := backend req
    let built := resp.things.map (thingRow groupsB shadowB columns)
    let rows := built.map (fun b => b.1)
    let gcalls := (built.map (fun b => b.2.1)).flatten
    let scalls := (built.map (fun b => b.2.2)).flatten
    if truthy resp.nextToken then
      let rest := listThingsLoop backend groupsB shadowB filterV columns fuel resp.nextToken
      ⟨rows ++ rest.rows, req :: rest.reqs, gcalls ++ rest.groupCalls,
        scalls ++ rest.shadowCalls⟩
    else
      ⟨rows, [req], gcalls, scalls⟩

/-- Model of _execute_thing (lines 203-256): extract the equality filter on
thing_type_name from the quals, then drain the paginated list. -/
def executeThing (backend : ListThingsReq → ListThingsResp)
    (groupsB : String → Option String) (shadowB : String → ShadowResult)
    (quals : List Qual) (columns : List String) (fuel : Nat) : ThingExecOut :=
  listThingsLoop backend groupsB shadowB (extractThingTypeName quals) columns fuel none

/-- A Python dict of column values, as handed to insert/update: an
insertion-ordered association list; a stored None value (SQL NULL) is
distinct from an absent key. -/
abbrev Values := List (String × Option String)

/-- Python membership test: key in d.keys(). -/
def hasKey (vs : Values) (k : String) : Bool :=
  vs.any (fun kv => kv.1 == k)

/-- Python d.get(k): None both when the key is absent and when the
stored value is None. -/
def dget (vs : Values) (k : String) : Option String :=
  match vs.find? (fun kv => kv.1 == k) with
  | Option.some kv => kv.2
  | Option.none => none

/-- Python d[k] = v on a key already present: replace the value in
place, preserving insertion order. -/
def dset (vs : Values) (k : String) (v : Option String) : Values :=
  vs.map (fun kv => if kv.1 == k then (kv.1, v) else kv)

/-- One call issued to the backend by a mutation adapter: create_thing
with or without the thingTypeName keyword (lines 320-327), delete_thing
(lines 374-376), or update_thing_shadow (lines 348-351). -/
inductive BackendCall where
  | createThing : Option String → Option String → BackendCall
  | deleteThing : String → BackendCall
  | updateThingShadow : String → Option String → BackendCall
deriving DecidableEq, Repr

/-- Outcome of a mutation entry point: a returned value together with
the trace of backend calls issued, or a NotImplementedError raised
before any backend call. -/
inductive MutOutcome (α : Type) where
  | ret : α → List BackendCall → MutOutcome α
  | notImplementedError : MutOutcome α
deriving DecidableEq, Repr

/-- Model of _insert_thing (lines 315-334): read thing_name and thing_type (sic -
the declared column is thing_type_name) from the values, call
create_thing with the type keyword only when that value is truthy, and
return the input values unchanged. -/
def insert_thing (values : Values) : Values × List BackendCall :=
  let new_thing := dget values "thing_name"
  let new_thing_type := dget values "thing_type"
  let call :=
    if truthy new_thing_type then
      BackendCall.createThing new_thing new_thing_type
    else
      BackendCall.createThing new_thing none
  (values, [call])

/-- insert (lines 306-313): dispatch on table_type; the thing kind
creates, the thing-type kind raises NotImplementedError, any other kind
falls through and returns None with no backend call. -/
def insert (table_type : String) (values : Values) : MutOutcome (Option Values) :=
  if pyLower table_type == "thing" then
    let r := insert_thing values
    MutOutcome.ret (some r.1) r.2
  else if pyLower table_type == "thing-type" then
    MutOutcome.notImplementedError
  else
    MutOutcome.ret none []

/-- Model of _update_thing (lines 345-361).  shadowB models
data_client.update_thing_shadow: given the thing name and the submitted
payload it returns the response's optional payload text.  When the
thing_shadow_data key is absent nothing is called and newvalues is
returned unchanged; when present, the shadow update is pushed and a
truthy response payload replaces the stored value. -/
def update_thing (shadowB : String → Option String → Option String)
    (rowid : String) (newvalues : Values) : Values × List BackendCall :=
  if hasKey newvalues "thing_shadow_data" then
    let submitted := dget newvalues "thing_shadow_data"
    let call := BackendCall.updateThingShadow rowid submitted
    match shadowB rowid submitted with
    | Option.some payload =>
      (dset newvalues "thing_shadow_data" (some payload), [call])
    | Option.none => (newvalues, [call])
  else
    (newvalues, [])

/-- update (lines 336-343): dispatch on table_type; the thing kind
updates the shadow, the thing-type kind raises NotImplementedError, any
other kind falls through and returns None with no backend call. -/
def update (table_type : String) (shadowB : String → Option String → Option String)
    (rowid : String) (newvalues : Values) : MutOutcome (Option Values) :=
  if pyLower table_type == "thing" then
    let r := update_thing shadowB rowid newvalues
    MutOutcome.ret (some r.1) r.2
  else if pyLower table_type == "thing-type" then
    MutOutcome.notImplementedError
  else
    MutOutcome.ret none []

/-- Model of _delete_thing (lines 372-383): call delete_thing and return None. -/
def delete_thing (rowid : String) : Option Values × List BackendCall :=
  (none, [BackendCall.deleteThing rowid])

/-- delete (lines 363-370): dispatch on table_type; the thing kind
deletes, the thing-type kind raises NotImplementedError, any other kind
falls through and returns None with no backend call. -/
def delete (table_type : String) (rowid : String) : MutOutcome (Option Values) :=
  if pyLower table_type == "thing" then
    let r := delete_thing rowid
    MutOutcome.ret r.1 r.2
  else if pyLower table_type == "thing-type" then
    MutOutcome.notImplementedError
  else
    MutOutcome.ret none []

/-! Concrete inputs used when settling individual claims. -/

/-- A LIKE predicate on the group-name column whose value is a literal
followed by one trailing wildcard. -/
def likeAbcQual : Qual := ⟨"thing_group_name", "~~", "abc%"⟩

/-- A thing-group backend that answers every request with an empty page
and no continuation token. -/
def emptyGroupBackend : ListThingGroupsReq → ListThingGroupsResp :=
  fun _ => ⟨[], none⟩

/-- A thing-type backend with two pages chained by cursor p2: page one
holds the single type t1, page two the single type t2. -/
def twoPageTypeBackend : ListThingTypesReq → ListThingTypesResp := fun req =>
  match req.nextToken with
  | Option.none => ⟨[⟨"t1", none, none, none⟩], some "p2"⟩
  | Option.some _ => ⟨[⟨"t2", none, none, none⟩], none⟩

/-- Insert values supplying the identity column and the declared
type-name column thing_type_name. -/
def insertValuesWithType : Values :=
  [("thing_name", some "d1"), ("thing_type_name", some "tt1")]

/-- A things backend with a single page of two devices d1 and d2. -/
def twoThingBackend : ListThingsReq → ListThingsResp := fun _ =>
  ⟨[⟨"d1", none, none, none, none⟩, ⟨"d2", none, none, none, none⟩], none⟩

/-- A shadow backend for which every lookup fails with ClientError. -/
def failingShadowBackend : String → ShadowResult :=
  fun _ => ShadowResult.clientError

/-- A group-membership backend that always fails (returns None). -/
def noGroupsBackend : String → Option String := fun _ => none

/-- A things backend answering every request with an empty page. -/
def emptyThingBackend : ListThingsReq → ListThingsResp := fun _ => ⟨[], none⟩

/-- A thing-group backend returning three pages of 250, 250 and 10
items, chained by the cursors page2 and page3. -/
def threePageGroupBackend : ListThingGroupsReq → ListThingGroupsResp := fun req =>
  match req.nextToken with
  | Option.none => ⟨List.replicate 250 ⟨"g", none⟩, some "page2"⟩
  | Option.some "page2" => ⟨List.replicate 250 ⟨"g", none⟩, some "page3"⟩
  | Option.some "page3" => ⟨List.replicate 10 ⟨"g", none⟩, none⟩
  | Option.some _ => ⟨[], none⟩

/-! Theorems settling the claims, preceded by shared helper lemmas. -/

/-- List.all over a map, for a type-changing function. -/
theorem all_map_comp {α β : Type} (l : List α) (g : α → β) (p : β → Bool) :
    (l.map g).all p = l.all (p ∘ g) := by
  induction l <;> simp_all

/-- Every request issued by the thing-group fetch loop carries the fixed
page-size cap MAX_RESULTS, for every backend, filter, column set, fuel
and starting token. -/
theorem listThingGroupsLoop_maxResults
    (backend : ListThingGroupsReq → ListThingGroupsResp)
    (f : Option String) (c : List String) :
    ∀ fuel tok,
      ((listThingGroupsLoop backend f c fuel tok).2.all
        (fun r => r.maxResults == MAX_RESULTS)) = true := by
  intro fuel
  induction fuel with
  | zero => intro tok; rfl
  | succ n ih =>
    intro tok
    dsimp only [listThingGroupsLoop]
    repeat' split
    all_goals
      simp only [List.all_cons, List.all_nil, Bool.and_true, beq_self_eq_true,
        Bool.true_and]
    all_goals first | rfl | exact ih _

/-- C1: the spec says a contains/like predicate on thing_group_name
whose value is a literal prefix followed by one trailing wildcard (such
as abc followed by the wildcard) yields the server-side name-prefix
filter abc.  The code instead tests the wildcard conditions on
qual.field_name rather than qual.value (line 113), and the field name
thing_group_name contains no wildcard, so the LIKE branch never fires:
the extractor returns none and the issued request carries no
namePrefixFilter. -/
theorem like_qual_yields_no_group_filter :
    extractThingGroupFilter [likeAbcQual] = none ∧
    (executeThingGroup emptyGroupBackend [likeAbcQual] [] 5).2
      = [⟨MAX_RESULTS, none, none⟩] :=
  ⟨rfl, rfl⟩

/-- C2: the claim says that with no equality predicate on
thing_type_name, no list_thing_types call carries a thingTypeName
filter.  But the source reuses the variable thing_type_name as the row
loop variable (line 179), so after the first page the variable holds the
last item's type name and the second call carries it as a filter: with
no quals at all, against a two-page backend whose first page ends with
type t1, the issued trace is one unfiltered call followed by one call
with thingTypeName t1. -/
theorem second_type_page_gains_spurious_filter :
    (executeThingType twoPageTypeBackend [] ["thing_type_name"] 5).2 =
      [⟨MAX_RESULTS, none, none⟩, ⟨MAX_RESULTS, some "p2", some "t1"⟩] :=
  rfl

/-- C3: the claim says insert on the thing kind passes a supplied
type-name reference to create_thing.  The declared column holding the
type-name reference is thing_type_name (import_schema line 26), but
_insert_thing reads values.get('thing_type') (line 317), a key that is
never a declared column: with values supplying thing_name d1 and
thing_type_name tt1, the backend call carries no type name, while the
input values are returned unchanged. -/
theorem insert_thing_drops_declared_type_column :
    dget insertValuesWithType "thing_type_name" = some "tt1" ∧
    insert "thing" insertValuesWithType =
      MutOutcome.ret (some insertValuesWithType)
        [BackendCall.createThing (some "d1") none] :=
  ⟨rfl, rfl⟩

/-- With only the identity column requested, building a thing row adds
no other column and issues no secondary call. -/
theorem thingRow_idOnly (gB : String → Option String) (sB : String → ShadowResult)
    (t : Thing) :
    thingRow gB sB ["thing_name"] t =
      ([("thing_name", PyVal.str t.thingName)], [], []) :=
  rfl

/-- Every thing row carries an entry for the identity column. -/
theorem thingRow_hasKey_id (gB : String → Option String) (sB : String → ShadowResult)
    (cols : List String) (t : Thing) :
    rowHasKey (thingRow gB sB cols t).1 "thing_name" = true := by
  dsimp only [thingRow]
  repeat' split
  all_goals simp [rowHasKey]

/-- Every entry of a thing row is the identity column or a requested
column. -/
theorem thingRow_keys_gated (gB : String → Option String) (sB : String → ShadowResult)
    (cols : List String) (t : Thing) :
    ((thingRow gB sB cols t).1.all
      (fun kv => kv.1 == "thing_name" || cols.contains kv.1)) = true := by
  dsimp only [thingRow]
  repeat' split
  all_goals simp_all

/-- A shadow lookup that fails with ClientError, or returns a response
without payload, produces None. -/
theorem thing_shadow_data_of_fail (sB : String → ShadowResult) (x : String)
    (h : sB x = ShadowResult.clientError ∨ sB x = ShadowResult.ok none) :
    thing_shadow_data sB x = none := by
  rcases h with h | h <;> simp [thing_shadow_data, h]

/-- When the shadow column is requested and the shadow lookup fails, the
thing row carries an entry for the shadow column whose value is null. -/
theorem thingRow_shadow_null (gB : String → Option String) (sB : String → ShadowResult)
    (cols : List String) (t : Thing)
    (hcol : cols.contains "thing_shadow_data" = true)
    (hfail : sB t.thingName = ShadowResult.clientError ∨
      sB t.thingName = ShadowResult.ok none) :
    rowGet (thingRow gB sB cols t).1 "thing_shadow_data" = some PyVal.null := by
  have hnone := thing_shadow_data_of_fail sB t.thingName hfail
  dsimp only [thingRow]
  simp only [hcol, if_true]
  repeat' split
  all_goals simp [rowGet, hnone, optVal, List.find?_append]

/-- Every row in every page of the things fetch loop carries the
identity column. -/
theorem listThingsLoop_rows_hasKey (b : ListThingsReq → ListThingsResp)
    (gB : String → Option String) (sB : String → ShadowResult)
    (f : Option String) (cols : List String) :
    ∀ fuel tok,
      ((listThingsLoop b gB sB f cols fuel tok).rows.all
        (fun r => rowHasKey r "thing_name")) = true := by
  intro fuel
  induction fuel with
  | zero => intro tok; rfl
  | succ n ih =>
    intro tok
    dsimp only [listThingsLoop]
    repeat' split
    all_goals
      simp [List.all_append, List.all_map, Function.comp, List.all_eq_true,
        thingRow_hasKey_id, ih]

/-- Every entry of every row of the things fetch loop is the identity
column or a requested column. -/
theorem listThingsLoop_rows_gated (b : ListThingsReq → ListThingsResp)
    (gB : String → Option String) (sB : String → ShadowResult)
    (f : Option String) (cols : List String) :
    ∀ fuel tok,
      ((listThingsLoop b gB sB f cols fuel tok).rows.all
        (fun r => r.all (fun kv => kv.1 == "thing_name" || cols.contains kv.1))) = true := by
  intro fuel
  induction fuel with
  | zero => intro tok; rfl
  | succ n ih =>
    intro tok
    dsimp only [listThingsLoop]
    repeat' split
    all_goals
      simp only [List.all_append, List.map_map, all_map_comp, Bool.and_eq_true]
    all_goals
      first
      | exact ⟨List.all_eq_true.mpr fun t _ => thingRow_keys_gated gB sB cols t, ih _⟩
      | exact List.all_eq_true.mpr fun t _ => thingRow_keys_gated gB sB cols t

/-- With only the identity column requested, the things fetch loop
issues no group-membership call and no shadow call. -/
theorem listThingsLoop_idOnly_calls (b : ListThingsReq → ListThingsResp)
    (gB : String → Option String) (sB : String → ShadowResult) (f : Option String) :
    ∀ fuel tok,
      (listThingsLoop b gB sB f ["thing_name"] fuel tok).groupCalls = [] ∧
      (listThingsLoop b gB sB f ["thing_name"] fuel tok).shadowCalls = [] := by
  intro fuel
  induction fuel with
  | zero => intro tok; exact ⟨rfl, rfl⟩
  | succ n ih =>
    intro tok
    dsimp only [listThingsLoop]
    repeat' split
    all_goals
      simp [thingRow_idOnly, List.map_map, Function.comp, ih]

/-- The number of rows emitted by the things fetch loop does not depend
on the shadow backend: a failing shadow lookup never terminates the
sequence early. -/
theorem listThingsLoop_length_shadow_independent (b : ListThingsReq → ListThingsResp)
    (gB : String → Option String) (sB sB2 : String → ShadowResult)
    (f : Option String) (cols : List String) :
    ∀ fuel tok,
      (listThingsLoop b gB sB f cols fuel tok).rows.length =
        (listThingsLoop b gB sB2 f cols fuel tok).rows.length := by
  intro fuel
  induction fuel with
  | zero => intro tok; rfl
  | succ n ih =>
    intro tok
    dsimp only [listThingsLoop]
    repeat' split
    all_goals simp [ih]

set_option maxRecDepth 100000 in
/-- C5: the fetch loop always passes the fixed page-size cap of 250, and
against the stub backend returning pages of 250, 250 and 10 items
chained by the cursors page2 and page3 it yields exactly 510 rows and
issues exactly 3 list calls, the first without a cursor and the later
ones with the cursor taken from the previous response, stopping at the
response that carries no cursor. -/
theorem pagination_drains_cursor_chain :
    (∀ (backend : ListThingGroupsReq → ListThingGroupsResp)
      (f : Option String) (c : List String) (fuel : Nat) (tok : Option String),
      ((listThingGroupsLoop backend f c fuel tok).2.all
        (fun r => r.maxResults == MAX_RESULTS)) = true)
    ∧ (executeThingGroup threePageGroupBackend [] [] 5).1.length = 510
    ∧ (executeThingGroup threePageGroupBackend [] [] 5).2 =
        [⟨MAX_RESULTS, none, none⟩, ⟨MAX_RESULTS, some "page2", none⟩,
          ⟨MAX_RESULTS, some "page3", none⟩] :=
  ⟨listThingGroupsLoop_maxResults, rfl, rfl⟩

/-- C9: invoking insert, update or delete on the thing-type kind raises
NotImplementedError (modelled by the call-free notImplementedError
outcome, since the source raises before building any backend call). -/
theorem thing_type_mutations_not_implemented :
    ∀ (values : Values) (sB : String → Option String → Option String)
      (rowid : String) (newvalues : Values),
      insert "thing-type" values = MutOutcome.notImplementedError ∧
      update "thing-type" sB rowid newvalues = MutOutcome.notImplementedError ∧
      delete "thing-type" rowid = MutOutcome.notImplementedError :=
  fun _ _ _ _ => ⟨rfl, rfl, rfl⟩

/-- C10: invoking insert, update or delete on the thing-group kind falls
through every dispatch branch and returns None with an empty backend
call trace - a silent no-op, with no error raised. -/
theorem thing_group_mutations_silent_noop :
    ∀ (values : Values) (sB : String → Option String → Option String)
      (rowid : String) (newvalues : Values),
      insert "thing-group" values = MutOutcome.ret none [] ∧
      update "thing-group" sB rowid newvalues = MutOutcome.ret none [] ∧
      delete "thing-group" rowid = MutOutcome.ret none [] :=
  fun _ _ _ _ => ⟨rfl, rfl, rfl⟩

/-- C6: every emitted thing row carries the identity column; every
entry of an emitted thing row is the identity column or a requested
column (unrequested columns are absent, not null-filled); and a query
requesting only the identity column issues zero group-membership calls
and zero shadow calls. -/
theorem thing_rows_identity_and_column_gating :
    ∀ (b : ListThingsReq → ListThingsResp) (gB : String → Option String)
      (sB : String → ShadowResult) (quals : List Qual) (cols : List String)
      (fuel : Nat),
      ((executeThing b gB sB quals cols fuel).rows.all
        (fun r => rowHasKey r "thing_name")) = true
      ∧ ((executeThing b gB sB quals cols fuel).rows.all
          (fun r => r.all (fun kv => kv.1 == "thing_name" || cols.contains kv.1))) = true
      ∧ (executeThing b gB sB quals ["thing_name"] fuel).groupCalls = []
      ∧ (executeThing b gB sB quals ["thing_name"] fuel).shadowCalls = [] :=
  fun b gB sB quals cols fuel =>
    ⟨listThingsLoop_rows_hasKey b gB sB (extractThingTypeName quals) cols fuel none,
     listThingsLoop_rows_gated b gB sB (extractThingTypeName quals) cols fuel none,
     (listThingsLoop_idOnly_calls b gB sB (extractThingTypeName quals) fuel none).1,
     (listThingsLoop_idOnly_calls b gB sB (extractThingTypeName quals) fuel none).2⟩

/-- C4, counterexample to the claim as stated: with the shadow column
requested and a shadow backend that fails for every device, each emitted
row DOES carry an entry for the shadow column - its value is null - and
the next device's row is still emitted.  The claim's assertion that the
row carries no entry for that column is false. -/
theorem shadow_failure_row_has_entry :
    (executeThing twoThingBackend noGroupsBackend failingShadowBackend []
        ["thing_shadow_data"] 5).rows =
      [[("thing_name", PyVal.str "d1"), ("thing_shadow_data", PyVal.null)],
       [("thing_name", PyVal.str "d2"), ("thing_shadow_data", PyVal.null)]] :=
  rfl

/-- C4, amended: when the shadow lookup for a device fails (ClientError)
or the backend has no shadow payload, the device's row carries the
shadow column with a null value; the failure is not an error for the
row, and the number of emitted rows does not depend on the shadow
backend at all, so the sequence never terminates early because of
shadow failures. -/
theorem shadow_failure_yields_null_and_continues :
    (∀ (gB : String → Option String) (sB : String → ShadowResult)
      (cols : List String) (t : Thing),
      cols.contains "thing_shadow_data" = true →
      (sB t.thingName = ShadowResult.clientError ∨
        sB t.thingName = ShadowResult.ok none) →
      rowGet (thingRow gB sB cols t).1 "thing_shadow_data" = some PyVal.null)
    ∧ (∀ (b : ListThingsReq → ListThingsResp) (gB : String → Option String)
        (sB sB2 : String → ShadowResult) (f : Option String) (cols : List String)
        (fuel : Nat) (tok : Option String),
        (listThingsLoop b gB sB f cols fuel tok).rows.length =
          (listThingsLoop b gB sB2 f cols fuel tok).rows.length) :=
  ⟨fun gB sB cols t hcol hfail => thingRow_shadow_null gB sB cols t hcol hfail,
   fun b gB sB sB2 f cols fuel tok =>
     listThingsLoop_length_shadow_independent b gB sB sB2 f cols fuel tok⟩

/-- Witness for the amended C4 theorem at a concrete device. -/
theorem shadow_failure_yields_null_witness :
    (["thing_shadow_data"] : List String).contains "thing_shadow_data" = true ∧
    rowGet (thingRow noGroupsBackend failingShadowBackend ["thing_shadow_data"]
        ⟨"d1", none, none, none, none⟩).1 "thing_shadow_data" = some PyVal.null :=
  ⟨rfl, shadow_failure_yields_null_and_continues.1 noGroupsBackend failingShadowBackend
    ["thing_shadow_data"] ⟨"d1", none, none, none, none⟩ rfl (Or.inl rfl)⟩

/-- Stepping a dict lookup over a cons cell. -/
theorem dget_cons (kv : String × Option String) (rest : Values) (k : String) :
    dget (kv :: rest) k = if kv.1 == k then kv.2 else dget rest k := by
  cases h : kv.1 == k <;> simp [dget, List.find?, h]

/-- Stepping a dict key replacement over a cons cell. -/
theorem dset_cons (kv : String × Option String) (rest : Values) (k2 : String)
    (v : Option String) :
    dset (kv :: rest) k2 v =
      (if kv.1 == k2 then (kv.1, v) else kv) :: dset rest k2 v :=
  rfl

/-- Replacing one key of a dict leaves every other key's value
unchanged. -/
theorem dget_dset_ne (vs : Values) (k k2 : String) (v : Option String)
    (h : ¬ k = k2) : dget (dset vs k2 v) k = dget vs k := by
  induction vs with
  | nil => rfl
  | cons kv rest ih =>
    by_cases hk : kv.1 = k2
    · have hne : ¬ k2 = k := fun hkk => h hkk.symm
      simp [dset_cons, dget_cons, hk, hne, ih]
    · simp [dset_cons, dget_cons, hk, ih]

/-- The dispatch of update for the thing kind is definitionally
_update_thing's result wrapped in a returned value. -/
theorem update_thing_dispatch (sB : String → Option String → Option String)
    (rowid : String) (nv : Values) :
    update "thing" sB rowid nv =
      MutOutcome.ret (some (update_thing sB rowid nv).1) (update_thing sB rowid nv).2 :=
  rfl

/-- C7: an update on the thing kind with no shadow field returns the
new values unchanged with zero backend writes; with the shadow field
present, exactly one shadow-update call is issued carrying that field's
submitted value, the backend's returned payload replaces the stored
value, and every other field's value is passed through unchanged. -/
theorem update_writes_only_shadow :
    ∀ (sB : String → Option String → Option String) (rowid : String) (nv : Values),
      (hasKey nv "thing_shadow_data" = false →
        update "thing" sB rowid nv = MutOutcome.ret (some nv) [])
      ∧ (∀ p, hasKey nv "thing_shadow_data" = true →
          sB rowid (dget nv "thing_shadow_data") = some p →
          update "thing" sB rowid nv =
            MutOutcome.ret (some (dset nv "thing_shadow_data" (some p)))
              [BackendCall.updateThingShadow rowid (dget nv "thing_shadow_data")])
      ∧ (∀ (v : Option String) (k : String), ¬ k = "thing_shadow_data" →
          dget (dset nv "thing_shadow_data" v) k = dget nv k) := by
  intro sB rowid nv
  refine ⟨?_, ?_, ?_⟩
  · intro h
    rw [update_thing_dispatch]
    unfold update_thing
    simp [h]
  · intro p hk hresp
    rw [update_thing_dispatch]
    unfold update_thing
    simp [hk, hresp]
  · intro v k hkne
    exact dget_dset_ne nv k "thing_shadow_data" v hkne

/-- Witness for C7 at concrete inputs, exercising both the absent-field
branch and the present-field branch. -/
theorem update_writes_only_shadow_witness :
    (hasKey ([("thing_arn", some "a")] : Values) "thing_shadow_data" = false ∧
      update "thing" (fun _ _ => some "resp") "d1" [("thing_arn", some "a")] =
        MutOutcome.ret (some [("thing_arn", some "a")]) []) ∧
    (hasKey ([("thing_shadow_data", some "sub")] : Values) "thing_shadow_data" = true ∧
      update "thing" (fun _ _ => some "resp") "d1" [("thing_shadow_data", some "sub")] =
        MutOutcome.ret
          (some (dset [("thing_shadow_data", some "sub")] "thing_shadow_data" (some "resp")))
          [BackendCall.updateThingShadow "d1"
            (dget [("thing_shadow_data", some "sub")] "thing_shadow_data")]) :=
  ⟨⟨rfl, (update_writes_only_shadow (fun _ _ => some "resp") "d1"
      [("thing_arn", some "a")]).1 rfl⟩,
   ⟨rfl, (update_writes_only_shadow (fun _ _ => some "resp") "d1"
      [("thing_shadow_data", some "sub")]).2.1 "resp" rfl rfl⟩⟩

/-- C8, counterexample to the claim as stated: the predicate set holds
an equality predicate on thing_type_name whose value is the empty
string, yet the issued request carries no filter (Python truthiness of
the empty string suppresses it), so the filter does not equal that
predicate's value. -/
theorem empty_equality_value_yields_no_filter :
    extractThingTypeName [⟨"thing_type_name", "=", ""⟩] = some "" ∧
    (executeThing emptyThingBackend noGroupsBackend failingShadowBackend
        [⟨"thing_type_name", "=", ""⟩] [] 5).reqs = [⟨MAX_RESULTS, none, none⟩] :=
  ⟨rfl, rfl⟩

/-- Every request of the things fetch loop carries the constant filter
argument derived from the filter variable by truthiness. -/
theorem listThingsLoop_filter_const (b : ListThingsReq → ListThingsResp)
    (gB : String → Option String) (sB : String → ShadowResult)
    (fv : Option String) (cols : List String) :
    ∀ fuel tok,
      ((listThingsLoop b gB sB fv cols fuel tok).reqs.all
        (fun r => r.thingTypeName == (if truthy fv then fv else none))) = true := by
  intro fuel
  induction fuel with
  | zero => intro tok; rfl
  | succ n ih =>
    intro tok
    dsimp only [listThingsLoop]
    repeat' split
    all_goals simp_all [List.all_cons, List.all_nil]
    all_goals exact ih _

/-- C8, amended: when the last equality predicate on thing_type_name
has a non-empty value, every issued list_things request carries exactly
that value as its thingTypeName filter; when that value is the empty
string, every request carries no filter. -/
theorem nonempty_equality_gives_exact_filter :
    ∀ (b : ListThingsReq → ListThingsResp) (gB : String → Option String)
      (sB : String → ShadowResult) (quals : List Qual) (cols : List String)
      (fuel : Nat),
      (∀ v, extractThingTypeName quals = some v → ¬ v = "" →
        ((executeThing b gB sB quals cols fuel).reqs.all
          (fun r => r.thingTypeName == some v)) = true)
      ∧ (extractThingTypeName quals = some "" →
        ((executeThing b gB sB quals cols fuel).reqs.all
          (fun r => r.thingTypeName == none)) = true) := by
  intro b gB sB quals cols fuel
  constructor
  · intro v hex hv
    unfold executeThing
    rw [hex]
    have h := listThingsLoop_filter_const b gB sB (some v) cols fuel none
    simpa [truthy, hv] using h
  · intro hex
    unfold executeThing
    rw [hex]
    have h := listThingsLoop_filter_const b gB sB (some "") cols fuel none
    simpa [truthy] using h

/-- Witness for the amended C8 theorem at a concrete predicate set. -/
theorem nonempty_equality_gives_exact_filter_witness :
    extractThingTypeName [⟨"thing_type_name", "=", "tt"⟩] = some "tt" ∧
    ((executeThing emptyThingBackend noGroupsBackend failingShadowBackend
        [⟨"thing_type_name", "=", "tt"⟩] [] 1).reqs.all
      (fun r => r.thingTypeName == some "tt")) = true :=
  ⟨rfl, (nonempty_equality_gives_exact_filter emptyThingBackend noGroupsBackend
      failingShadowBackend [⟨"thing_type_name", "=", "tt"⟩] [] 1).1 "tt" rfl
      (by decide)⟩

end AICfdw
